import Mathlib

/-!
Shallow embedding of the core of llm-chatifier, a terminal client that
detects and talks to HTTP LLM APIs.  The embedded components are the
connectivity probe and helpers (`utils.py`), the detection engine
(`detector.py`), the provider clients and the client factory
(`clients.py`).  Python functions are modelled as total Lean functions;
HTTP traffic is abstracted as oracles mapping requests to responses;
Python exceptions are modelled with `Except` (paired with the
post-mutation client state where the Python object survives the raise).
-/

namespace Chatifier

/-- Kinds of exception raised by the Python code.  Exception messages are
not modelled, only which raise-site fires. -/
inductive PyErr where
  | apiError
  | authError
  | invalidResponse
  | missingKey
  | valueError
  | typeError
deriving DecidableEq

/-- JSON values, as produced by `response.json()`.  Objects are association
lists; `json.loads` collapses duplicate keys, so keys are unique. -/
inductive Json where
  | null
  | bool (b : Bool)
  | num (n : Int)
  | str (s : String)
  | arr (xs : List Json)
  | obj (kvs : List (String × Json))

/-- Python `data[key]` on a dict, as an `Option` (a `KeyError`/`TypeError`
raise is `none`; every call site catches and treats both as a failed parse). -/
def Json.getKey : Json → String → Option Json
  | .obj kvs, k => (kvs.find? (fun kv => kv.1 == k)).map (fun kv => kv.2)
  | _, _ => none

/-- Python `data[i]` on a list, as an `Option` (an `IndexError`/`TypeError`
raise is `none`; every call site catches and treats both as a failed parse). -/
def Json.getIdx : Json → Nat → Option Json
  | .arr xs, i => xs.get? i
  | _, _ => none

/-- Python truthiness of a JSON value (`if reply:`). -/
def Json.truthy : Json → Bool
  | .null => false
  | .bool b => b
  | .num n => n != 0
  | .str s => s != ""
  | .arr xs => !xs.isEmpty
  | .obj kvs => !kvs.isEmpty

mutual

/-- Python `repr` of a JSON value (used by `str()` on non-string values). -/
def pyRepr : Json → String
  | .null => "None"
  | .bool true => "True"
  | .bool false => "False"
  | .num n => toString n
  | .str s => "\x27" ++ s ++ "\x27"
  | .arr xs => "[" ++ String.intercalate ", " (pyReprList xs) ++ "]"
  | .obj kvs => "\x7b" ++ String.intercalate ", " (pyReprPairs kvs) ++ "\x7d"

/-- Helper of `pyRepr` for array elements. -/
def pyReprList : List Json → List String
  | [] => []
  | x :: xs => pyRepr x :: pyReprList xs

/-- Helper of `pyRepr` for object entries. -/
def pyReprPairs : List (String × Json) → List String
  | [] => []
  | kv :: xs => ("\x27" ++ kv.1 ++ "\x27: " ++ pyRepr kv.2) :: pyReprPairs xs

end

/-- Python `str()` of a JSON value: strings unchanged, everything else its repr. -/
def pyStr : Json → String
  | .str s => s
  | j => pyRepr j

/-- Whether `pre` is a prefix of the second list (on characters). -/
def isPrefixL : List Char → List Char → Bool
  | [], _ => true
  | _ :: _, [] => false
  | a :: as, b :: bs => a == b && isPrefixL as bs

/-- Whether `needle` occurs as a contiguous sublist of `hay`. -/
def containsL (needle : List Char) : List Char → Bool
  | [] => isPrefixL needle []
  | h :: t => isPrefixL needle (h :: t) || containsL needle t

/-- Python `needle in hay` on strings (substring test; `hay` first). -/
def pyContains (hay needle : String) : Bool :=
  containsL needle.toList hay.toList

/-- Python `s.lower()` (ASCII; the scanned keywords are all ASCII). -/
def pyLower (s : String) : String :=
  String.mk (s.toList.map Char.toLower)

/-- Value of a nonempty all-ASCII-digit character list. -/
def digitsVal? (ds : List Char) : Option Nat :=
  if !ds.isEmpty && ds.all Char.isDigit then
    some (ds.foldl (fun a c => 10 * a + (c.toNat - 48)) 0)
  else none

/-- Model of Python `int(s)`: an optional sign followed by one or more digits.
(Surrounding whitespace and underscore separators, which Python also accepts,
are not modelled; no input in this development uses them.) -/
def pyInt? (s : String) : Option Int :=
  match s.toList with
  | '-' :: ds => (digitsVal? ds).map (fun n => -(n : Int))
  | '+' :: ds => (digitsVal? ds).map (fun n => (n : Int))
  | ds => (digitsVal? ds).map (fun n => (n : Int))

/-- Python `s.rstrip(c)` for a single character: drop trailing copies of `c`. -/
def rstripChar (c : Char) (s : String) : String :=
  String.mk ((s.toList.reverse.dropWhile (fun d => d == c)).reverse)

/-- HTTP response as seen by the embedded code: status code, the JSON body
(`none` when `response.json()` raises), and the raw text body. -/
structure HResponse where
  status : Nat
  body : Option Json
  text : String

/-- Auth-related keywords scanned for by `is_auth_error` (utils.py line 125). -/
def authKeywords : List String :=
  ["unauthorized", "forbidden", "authentication", "token", "api key"]

/-- Model of `utils.is_auth_error` (utils.py lines 111-128): status 401/403,
or any auth keyword occurring in the lowercased body text.  (The `except`
around the text scan guards `response.text` decoding, which cannot fail in
this model.) -/
def is_auth_error (r : HResponse) : Bool :=
  if r.status == 401 || r.status == 403 then true
  else authKeywords.any (fun k => pyContains (pyLower r.text) k)

/-- The two HTTP verbs tried by the connectivity probe. -/
inductive Method where
  | HEAD
  | GET
deriving DecidableEq

/-- One pass of the probe loop of `utils.try_connection` (utils.py lines
37-48) over the remaining methods, against an oracle giving each method
either a status code or `none` for a network-level `httpx.RequestError`.
A status below 500 is success, except that 405 on HEAD falls through to
the next method; failures and statuses of 500 and above continue the loop. -/
def tryConnectionLoop (o : Method → Option Nat) : List Method → Bool
  | [] => false
  | m :: rest =>
    match o m with
    | none => tryConnectionLoop o rest
    | some c =>
      if c < 500 then
        if c == 405 && m == Method.HEAD then tryConnectionLoop o rest
        else true
      else tryConnectionLoop o rest

/-- Model of `utils.try_connection` (utils.py lines 20-54): HEAD first, then
GET.  The outer `except Exception` makes the Python function total; the model
is total by construction. -/
def try_connection (o : Method → Option Nat) : Bool :=
  tryConnectionLoop o [Method.HEAD, Method.GET]

/-- The methods actually attempted by the probe loop: every method is tried
until one short-circuits with success. -/
def attemptsLoop (o : Method → Option Nat) : List Method → List Method
  | [] => []
  | m :: rest =>
    match o m with
    | none => m :: attemptsLoop o rest
    | some c =>
      if c < 500 then
        if c == 405 && m == Method.HEAD then m :: attemptsLoop o rest
        else [m]
      else m :: attemptsLoop o rest

/-- The requests `try_connection` issues against a given oracle. -/
def attempted (o : Method → Option Nat) : List Method :=
  attemptsLoop o [Method.HEAD, Method.GET]

/-- Model of `utils.build_base_url` (utils.py lines 66-83). -/
def build_base_url (host : String) (port : Int) (use_https : Bool) : String :=
  let scheme := if use_https then "https" else "http"
  if (use_https && port == 443) || (!use_https && port == 80) then
    scheme ++ "://" ++ host
  else
    scheme ++ "://" ++ host ++ ":" ++ toString port

/-- Characters admitted in a URL scheme by `urllib.parse` (letters, digits,
plus, minus, dot). -/
def schemeChar (c : Char) : Bool :=
  c.isAlpha || c.isDigit || c == '+' || c == '-' || c == '.'

/-- Split a character list at the first occurrence of `c`: returns the parts
before and after it, or `none` when `c` does not occur. -/
def splitFirstChar (c : Char) : List Char → Option (List Char × List Char)
  | [] => none
  | h :: t =>
    if h == c then some ([], t)
    else
      match splitFirstChar c t with
      | some p => some (h :: p.1, p.2)
      | none => none

/-- The components of `urllib.parse.urlparse` this program reads. -/
structure UrlParts where
  scheme : String
  netloc : String
  hostname : String
  portStr : String

/-- Model of `urllib.parse.urlparse` restricted to the fields read by
`parse_host_input`: the scheme is the lowercased text before the first colon
when that text starts with an ASCII letter and uses only scheme characters;
the netloc follows a leading `//` up to the next `/`, `?` or `#`; the
hostname is the lowercased netloc after any userinfo `@` and before its
first colon; the port string is what follows that colon.  (Bracketed IPv6
netlocs are not modelled; no input in this development uses them.) -/
def pyUrlparse (input : String) : UrlParts :=
  let cs := input.toList
  let schemeRest :=
    match splitFirstChar ':' cs with
    | some p =>
      match p.1 with
      | [] => (("" : String), cs)
      | p0 :: _ =>
        if p0.isAlpha && p.1.all schemeChar then
          (String.mk (p.1.map Char.toLower), p.2)
        else (("" : String), cs)
    | none => (("" : String), cs)
  let netlocL :=
    match schemeRest.2 with
    | '/' :: '/' :: r2 => r2.takeWhile (fun c => c != '/' && c != '?' && c != '#')
    | _ => []
  let hostinfo := (netlocL.reverse.takeWhile (fun c => c != '@')).reverse
  let hostPort :=
    match splitFirstChar ':' hostinfo with
    | some p => p
    | none => (hostinfo, [])
  ⟨schemeRest.1, String.mk netlocL, String.mk (hostPort.1.map Char.toLower),
    String.mk hostPort.2⟩

/-- Model of the `port` property of a parse result: empty gives no port, a
value parseable as an integer in [0, 65535] gives that port, anything else
raises `ValueError`. -/
def urlPort (portStr : String) : Except PyErr (Option Int) :=
  if portStr == "" then .ok none
  else
    match pyInt? portStr with
    | some n => if 0 ≤ n && n ≤ 65535 then .ok (some n) else .error .valueError
    | none => .error .valueError

/-- The URL branch of `utils.parse_host_input` (utils.py lines 166-171):
urlparse the input, take `parsed.hostname or parsed.netloc`, `parsed.port`
(which may raise `ValueError`), and HTTPS exactly when the scheme is
`https`. -/
def urlBranch (input : String) : Except PyErr (String × Option Int × Bool) :=
  let u := pyUrlparse input
  match urlPort u.portStr with
  | .error e => .error e
  | .ok port =>
    .ok (if u.hostname != "" then u.hostname else u.netloc, port,
      u.scheme == "https")

/-- Python `s.rsplit(c, 1)` when `c` occurs: the text before the last
occurrence of `c`, and the text after it. -/
def rsplitChar (c : Char) (s : String) : String × String :=
  let r := s.toList.reverse
  (String.mk ((r.dropWhile (fun d => d != c)).drop 1).reverse,
   String.mk (r.takeWhile (fun d => d != c)).reverse)

/-- Number of occurrences of character `c` in `s` (Python `s.count(c)`). -/
def pyCountChar (c : Char) (s : String) : Nat :=
  (s.toList.filter (fun d => d == c)).length

/-- The trailing-bare-host heuristic of `utils.parse_host_input` (utils.py
lines 182-187): the whole input as hostname, no port, HTTPS exactly when the
input contains a dot and removing dots and dashes leaves something that is
not a pure digit string. -/
def bareHost (input : String) : String × Option Int × Bool :=
  let stripped := input.toList.filter (fun c => c != '.' && c != '-')
  (input, none,
    pyContains input "." && !(!stripped.isEmpty && stripped.all Char.isDigit))

/-- Model of `utils.parse_host_input` (utils.py lines 156-187): URLs (inputs
containing `://`) through `urlparse`; inputs with exactly one colon split
into host and integer port with HTTP; everything else, including a single
colon whose suffix `int()` rejects, through the bare-host heuristic. -/
def parse_host_input (input : String) : Except PyErr (String × Option Int × Bool) :=
  if pyContains input "://" then urlBranch input
  else
    if pyCountChar ':' input == 1 then
      match pyInt? (rsplitChar ':' input).2 with
      | some n => .ok ((rsplitChar ':' input).1, some n, false)
      | none => .ok (bareHost input)
    else .ok (bareHost input)

/-- Signature table `detector.API_ENDPOINTS` (detector.py lines 17-24), in
source declaration order. -/
def API_ENDPOINTS : List (String × List String) :=
  [("openai", ["/v1/models", "/v1/chat/completions"]),
   ("anthropic", ["/v1/messages", "/v1/models"]),
   ("ollama", ["/api/tags", "/api/generate"]),
   ("gemini", ["/v1beta/models", "/v1beta/models/gemini-pro:generateContent"]),
   ("cohere", ["/v1/chat"]),
   ("generic", ["/chat", "/api/chat", "/message", "/api/message"])]

/-- Fallback port list `detector.DEFAULT_PORTS` (detector.py line 27). -/
def DEFAULT_PORTS : List Int :=
  [8080, 8000, 3000, 5000, 11434, 80, 443]

/-- The candidate port list of `detect_api` (detector.py line 41):
`[port] if port else DEFAULT_PORTS`, where a Python-falsy port (absent
or zero) selects the fallback list. -/
def portsToTry (port : Option Int) : List Int :=
  match port with
  | some p => if p != 0 then [p] else DEFAULT_PORTS
  | none => DEFAULT_PORTS

/-- Successful detection outcome (detector.py lines 60-65). -/
structure DetectionResult where
  type : String
  host : String
  port : Int
  base_url : String
deriving DecidableEq

/-- Model of `detector.detect_api` (detector.py lines 30-70) against an
oracle giving each probed URL the boolean outcome of `try_connection`:
nested first-match search over candidate ports, then schemes (HTTPS before
HTTP on both branches of the `prefer_https` conditional, detector.py line
47), then provider signatures in declaration order, then each signature's
paths in declared order. -/
def detect_api (host : String) (port : Option Int) (prefer_https : Bool)
    (oracle : String → Bool) : Option DetectionResult :=
  (portsToTry port).findSome? fun p =>
    (if prefer_https then [true, false] else [true, false]).findSome? fun use_https =>
      API_ENDPOINTS.findSome? fun sig =>
        sig.2.findSome? fun ep =>
          if oracle (build_base_url host p use_https ++ ep) then
            some ⟨sig.1, host, p, build_base_url host p use_https⟩
          else none

/-- The flattened, ordered list of probes `detect_api` performs: each entry
pairs the result returned on a hit with the URL probed. -/
def probeList (host : String) (port : Option Int) :
    List (DetectionResult × String) :=
  (portsToTry port).flatMap fun p =>
    [true, false].flatMap fun use_https =>
      API_ENDPOINTS.flatMap fun sig =>
        sig.2.map fun ep =>
          (⟨sig.1, host, p, build_base_url host p use_https⟩,
           build_base_url host p use_https ++ ep)

/-- One conversation turn (`{"role": ..., "content": ...}`).  Content is a
JSON value because the Python code appends whatever `response.json()`
yielded without checking it is a string. -/
structure Message where
  role : String
  content : Json

/-- State of a provider client: the fields set by `BaseClient.__init__`
(clients.py lines 22-29).  The HTTP connection object carries no state the
embedded code reads. -/
structure ClientState where
  base_url : String
  token : Option String
  model : Option String
  history : List Message

/-- Model of `BaseClient.__init__` (clients.py lines 22-29): strips trailing
slashes from the base URL and starts with an empty history. -/
def mkClient (base_url : String) (token model : Option String) : ClientState :=
  ⟨rstripChar '/' base_url, token, model, []⟩

/-- Model of `BaseClient.clear_history` (clients.py lines 51-53). -/
def clear_history (st : ClientState) : ClientState :=
  { st with history := [] }

/-- Python `opt or default` on an optional string: the default replaces both
an absent and an empty (falsy) value. -/
def pyOrStr (o : Option String) (d : String) : String :=
  match o with
  | some s => if s != "" then s else d
  | none => d

/-- Python truthiness of an optional string (`if not self.token:`). -/
def tokenTruthy (o : Option String) : Bool :=
  match o with
  | some s => s != ""
  | none => false

/-- Serialize a history as the JSON `messages` array sent by OpenAI-style
payloads. -/
def historyJson (h : List Message) : Json :=
  .arr (h.map (fun m => .obj [("role", .str m.role), ("content", m.content)]))

/-- Model of `OpenAIClient.send_message` (clients.py lines 94-125) against
an oracle mapping the posted JSON payload to the HTTP response.  The user
turn is appended to `self.history` before the request; each failure path
raises with that appended turn still in place.  Lookup failures on the
response collapse to one error kind (Python raises
`Exception("Invalid response format")` for `KeyError`/`IndexError` and an
uncaught `TypeError` for non-indexable intermediates; both are raises with
the same state). -/
def openaiSend (st : ClientState) (text : String) (oracle : Json → HResponse) :
    Except PyErr Json × ClientState :=
  let st1 := { st with history := st.history ++ [⟨"user", .str text⟩] }
  let payload := Json.obj
    [("model", .str (pyOrStr st.model "gpt-3.5-turbo")),
     ("messages", historyJson st1.history), ("stream", .bool false)]
  let r := oracle payload
  if 400 ≤ r.status then
    if is_auth_error r then (.error .authError, st1) else (.error .apiError, st1)
  else
    match r.body with
    | none => (.error .invalidResponse, st1)
    | some data =>
      match data.getKey "choices" >>= (fun c => c.getIdx 0) >>=
          (fun c0 => c0.getKey "message") >>= (fun m => m.getKey "content") with
      | none => (.error .invalidResponse, st1)
      | some reply =>
        (.ok reply, { st1 with history := st1.history ++ [⟨"assistant", reply⟩] })

/-- The flattened transcript `OllamaClient.send_message` builds from the
history (clients.py lines 159-164). -/
def ollamaContext : List Message → String
  | [] => ""
  | m :: rest =>
    (if m.role == "user" then "User: " ++ pyStr m.content ++ "\n"
     else "Assistant: " ++ pyStr m.content ++ "\n") ++ ollamaContext rest

/-- Model of `OllamaClient.send_message` (clients.py lines 156-191): sends
one prompt string; appends the user and assistant turns together only after
the response parses. -/
def ollamaSend (st : ClientState) (text : String) (oracle : Json → HResponse) :
    Except PyErr Json × ClientState :=
  let prompt := ollamaContext st.history ++ "User: " ++ text ++ "\nAssistant: "
  let payload := Json.obj
    [("model", .str (pyOrStr st.model "llama2")),
     ("prompt", .str prompt), ("stream", .bool false)]
  let r := oracle payload
  if 400 ≤ r.status then (.error .apiError, st)
  else
    match r.body with
    | none => (.error .invalidResponse, st)
    | some data =>
      match data.getKey "response" with
      | none => (.error .invalidResponse, st)
      | some reply =>
        (.ok reply,
         { st with history := st.history ++ [⟨"user", .str text⟩, ⟨"assistant", reply⟩] })

/-- Model of `AnthropicClient.send_message` (clients.py lines 236-273): the
request carries the history minus system turns plus the new user turn; the
client history itself is only appended to after the response parses. -/
def anthropicSend (st : ClientState) (text : String) (oracle : Json → HResponse) :
    Except PyErr Json × ClientState :=
  let msgs := (st.history.filter (fun m => m.role != "system")) ++ [⟨"user", .str text⟩]
  let payload := Json.obj
    [("model", .str (pyOrStr st.model "claude-3-sonnet-20240229")),
     ("max_tokens", .num 4000), ("messages", historyJson msgs)]
  let r := oracle payload
  if 400 ≤ r.status then
    if is_auth_error r then (.error .authError, st) else (.error .apiError, st)
  else
    match r.body with
    | none => (.error .invalidResponse, st)
    | some data =>
      match data.getKey "content" >>= (fun c => c.getIdx 0) >>=
          (fun c0 => c0.getKey "text") with
      | none => (.error .invalidResponse, st)
      | some reply =>
        (.ok reply,
         { st with history := st.history ++ [⟨"user", .str text⟩, ⟨"assistant", reply⟩] })

/-- Model of `GeminiClient.send_message` (clients.py lines 407-450): refuses
without an API key; remaps assistant turns to the `model` role; appends only
after the response parses.  (The token and model travel in the request URL,
which the payload oracle abstracts away.) -/
def geminiSend (st : ClientState) (text : String) (oracle : Json → HResponse) :
    Except PyErr Json × ClientState :=
  if !tokenTruthy st.token then (.error .missingKey, st)
  else
    let contents := st.history.map (fun m =>
        Json.obj [("role", .str (if m.role == "user" then "user" else "model")),
                  ("parts", .arr [.obj [("text", m.content)]])])
      ++ [Json.obj [("role", .str "user"), ("parts", .arr [.obj [("text", .str text)]])]]
    let r := oracle (Json.obj [("contents", .arr contents)])
    if 400 ≤ r.status then (.error .apiError, st)
    else
      match r.body with
      | none => (.error .invalidResponse, st)
      | some data =>
        match data.getKey "candidates" >>= (fun c => c.getIdx 0) >>=
            (fun c0 => c0.getKey "content") >>= (fun c1 => c1.getKey "parts") >>=
            (fun p => p.getIdx 0) >>= (fun p0 => p0.getKey "text") with
        | none => (.error .invalidResponse, st)
        | some reply =>
          (.ok reply,
           { st with history := st.history ++ [⟨"user", .str text⟩, ⟨"assistant", reply⟩] })

/-- Model of `CohereClient.send_message` (clients.py lines 481-521): refuses
without a token; sends the history as a separate `chat_history` array with
USER/CHATBOT roles; appends only after the response parses. -/
def cohereSend (st : ClientState) (text : String) (oracle : Json → HResponse) :
    Except PyErr Json × ClientState :=
  if !tokenTruthy st.token then (.error .missingKey, st)
  else
    let hist := st.history.map (fun m =>
        Json.obj [("role", .str (if m.role == "user" then "USER" else "CHATBOT")),
                  ("message", m.content)])
    let payload := Json.obj
      [("message", .str text), ("model", .str (pyOrStr st.model "command")),
       ("chat_history", .arr hist)]
    let r := oracle payload
    if 400 ≤ r.status then (.error .apiError, st)
    else
      match r.body with
      | none => (.error .invalidResponse, st)
      | some data =>
        match data.getKey "text" with
        | none => (.error .invalidResponse, st)
        | some reply =>
          (.ok reply,
           { st with history := st.history ++ [⟨"user", .str text⟩, ⟨"assistant", reply⟩] })

/-- The four candidate payload shapes `GenericClient.send_message` tries, in
source order (clients.py lines 315-334). -/
def genericPayloads (text : String) : List Json :=
  [Json.obj [("messages", .arr [.obj [("role", .str "user"), ("content", .str text)]]),
             ("model", .str "default")],
   Json.obj [("message", .str text), ("user", .str "user")],
   Json.obj [("text", .str text)],
   Json.obj [("query", .str text)]]

/-- The candidate reply keys `GenericClient.send_message` scans, in source
order (clients.py line 347). -/
def genericKeys : List String :=
  ["response", "message", "text", "reply", "answer"]

/-- First reply key present in the response body (the `for key in ...:
if key in data: ... break` loop, clients.py lines 347-352). -/
def firstReplyKey (data : Json) : Option Json :=
  genericKeys.findSome? (fun k => data.getKey k)

/-- Content unwrapping of a dict reply (clients.py lines 350-351). -/
def unwrapContent (r : Json) : Json :=
  match r with
  | .obj kvs =>
    match (Json.obj kvs).getKey "content" with
    | some c => c
    | none => .obj kvs
  | _ => r

/-- What a single response yields in the generic per-payload attempt
(clients.py lines 340-358): on a sub-400 status whose body parses to a dict
with a recognised reply key, the unwrapped reply when truthy, as `str()`;
otherwise nothing and the loop moves on.  (Non-dict bodies either raise
inside the `try` or leave `reply` as `None`; both continue the loop.) -/
def genericAccepts (r : HResponse) : Option String :=
  if r.status < 400 then
    match r.body with
    | some data =>
      match firstReplyKey data with
      | some r0 =>
        if (unwrapContent r0).truthy then some (pyStr (unwrapContent r0)) else none
      | none => none
    | none => none
  else none

/-- The payload loop of `GenericClient.send_message` (clients.py lines
338-364): first accepted payload wins and appends both turns; exhaustion
raises the final `Exception("Unable to get response from generic API")`. -/
def genericSendLoop (st : ClientState) (text : String)
    (oracle : Json → HResponse) : List Json → Except PyErr Json × ClientState
  | [] => (.error .apiError, st)
  | p :: rest =>
    match genericAccepts (oracle p) with
    | some s =>
      (.ok (.str s),
       { st with history := st.history ++ [⟨"user", .str text⟩, ⟨"assistant", .str s⟩] })
    | none => genericSendLoop st text oracle rest

/-- Model of `GenericClient.send_message` (clients.py lines 312-364). -/
def genericSend (st : ClientState) (text : String) (oracle : Json → HResponse) :
    Except PyErr Json × ClientState :=
  genericSendLoop st text oracle (genericPayloads text)

/-- The candidate chat endpoints probed by `GenericClient._discover_endpoints`
(clients.py line 286). -/
def genericTestEndpoints : List String :=
  ["/chat", "/api/chat", "/message", "/api/message", "/completion"]

/-- The endpoint loop of `GenericClient._discover_endpoints` (clients.py
lines 288-295) against an oracle giving the GET status per endpoint: first
endpoint answering below 500 wins. -/
def discoverLoop (probe : String → Nat) : List String → Option String
  | [] => none
  | ep :: rest => if probe ep < 500 then some ep else discoverLoop probe rest

/-- Model of `GenericClient._discover_endpoints` (clients.py lines 284-298):
the first sub-500 endpoint, defaulting to `/chat`. -/
def discoverEndpoint (probe : String → Nat) : String :=
  (discoverLoop probe genericTestEndpoints).getD "/chat"

/-- The six provider families. -/
inductive Provider where
  | openai
  | ollama
  | anthropic
  | gemini
  | cohere
  | generic
deriving DecidableEq

/-- `send_message` of each provider client, uniformly, against a payload
oracle. -/
def sendMessage (k : Provider) (st : ClientState) (text : String)
    (oracle : Json → HResponse) : Except PyErr Json × ClientState :=
  match k with
  | .openai => openaiSend st text oracle
  | .ollama => ollamaSend st text oracle
  | .anthropic => anthropicSend st text oracle
  | .gemini => geminiSend st text oracle
  | .cohere => cohereSend st text oracle
  | .generic => genericSend st text oracle

/-- Run a sequence of `send_message` calls, each with its own text and
oracle; `none` as soon as one raises. -/
def runSends (k : Provider) (st : ClientState) :
    List (String × (Json → HResponse)) → Option ClientState
  | [] => some st
  | step :: rest =>
    match sendMessage k st step.1 step.2 with
    | (.ok _, st1) => runSends k st1 rest
    | (.error _, _) => none

/-- A history is a strict alternation of user/assistant pairs. -/
def alternatesUA : List Message → Bool
  | [] => true
  | [_] => false
  | u :: a :: rest => u.role == "user" && a.role == "assistant" && alternatesUA rest

/-- Model of `OpenAIClient.test_connection` (clients.py lines 66-75) given
the response to `GET {base_url}/v1/models`: an auth-looking response raises
the authentication error, any other 400-or-above status raises a generic
API error. -/
def openaiTestConnection (r : HResponse) : Except PyErr Unit :=
  if is_auth_error r then .error .authError
  else if 400 ≤ r.status then .error .apiError
  else .ok ()

/-- Default base URL chosen by `create_client` per provider when none is
supplied (clients.py lines 536-549). -/
def defaultBaseUrl (api_type : String) : String :=
  if api_type == "openai" then "https://api.openai.com"
  else if api_type == "anthropic" then "https://api.anthropic.com"
  else if api_type == "gemini" then "https://generativelanguage.googleapis.com"
  else if api_type == "cohere" then "https://api.cohere.ai"
  else if api_type == "ollama" then "http://localhost:11434"
  else "http://localhost:8080"

/-- Model of `clients.create_client` (clients.py lines 524-564).  A falsy
(absent or empty) `base_url` is replaced by the provider default.  The
`generic` arm is `GenericClient(base_url, token, model)`, but
`GenericClient.__init__` (clients.py line 279) accepts only
`(base_url, token)`, so that call always raises `TypeError`; unknown
identifiers raise `ValueError`. -/
def create_client (api_type : String) (base_url token model : Option String) :
    Except PyErr (Provider × ClientState) :=
  let burl :=
    match base_url with
    | some b => if b != "" then b else defaultBaseUrl api_type
    | none => defaultBaseUrl api_type
  if api_type == "openai" then .ok (.openai, mkClient burl token model)
  else if api_type == "ollama" then .ok (.ollama, mkClient burl token model)
  else if api_type == "anthropic" then .ok (.anthropic, mkClient burl token model)
  else if api_type == "gemini" then .ok (.gemini, mkClient burl token model)
  else if api_type == "cohere" then .ok (.cohere, mkClient burl token model)
  else if api_type == "generic" then .error .typeError
  else .error .valueError

/-- First payload of a list that a response oracle accepts, with the reply
it yields. -/
def firstAccepted (o : Json → HResponse) : List Json → Option (Json × String)
  | [] => none
  | p :: rest =>
    match genericAccepts (o p) with
    | some s => some (p, s)
    | none => firstAccepted o rest

/-- Oracle of a server answering 500 with an unparseable body to every
request. -/
def alwaysServerError : Json → HResponse := fun _ => ⟨500, none, ""⟩

/-- Oracle of an OpenAI-style server answering every request with a
well-formed chat completion whose reply text is `ok`. -/
def okChatOracle : Json → HResponse := fun _ =>
  ⟨200,
   some (.obj [("choices", .arr [.obj [("message",
     .obj [("role", .str "assistant"), ("content", .str "ok")])]])]),
   ""⟩

/-- Oracle of a mock endpoint that accepts only the third generic payload
shape (the `text` form) and then answers `{"reply": "hi"}`; every other
shape gets a 404. -/
def mockThirdShape : Json → HResponse := fun p =>
  match p with
  | .obj [("text", _)] => ⟨200, some (.obj [("reply", .str "hi")]), ""⟩
  | _ => ⟨404, none, ""⟩

/-- Probe oracle answering 405 to HEAD and 500 to GET. -/
def probe405Then500 : Method → Option Nat := fun m =>
  match m with
  | .HEAD => some 405
  | .GET => some 500

/-- Probe oracle answering 200 to every method. -/
def probeAllOk : Method → Option Nat := fun _ => some 200

/-- URL oracle of a host that answers (with some sub-500 status) on both the
first OpenAI probe path and the first Ollama probe path at port 9 over
HTTPS, and nowhere else. -/
def twoProviderOracle : String → Bool := fun u =>
  u == "https://h:9/v1/models" || u == "https://h:9/api/tags"

/-!
Theorems.  Each claim of the specification gets one theorem; shared helper
lemmas come first.
-/

/-- C1.  Evaluation of the code at a failing input: when the server answers
500, `OpenAIClient.send_message` raises but leaves the speculative user turn
appended to `conversation_history` (clients.py line 97 appends before the
request and no failure path rolls it back), violating the all-or-nothing
requirement; the other clients, here Ollama and Anthropic on the same
failing response, leave the history untouched. -/
theorem openai_send_failure_leaves_user_turn :
    (sendMessage Provider.openai (mkClient "http://h" none none) "hi"
        alwaysServerError).1 = .error .apiError ∧
    ((sendMessage Provider.openai (mkClient "http://h" none none) "hi"
        alwaysServerError).2).history = [⟨"user", .str "hi"⟩] ∧
    ((sendMessage Provider.ollama (mkClient "http://h" none none) "hi"
        alwaysServerError).2).history = [] ∧
    ((sendMessage Provider.anthropic (mkClient "http://h" none none) "hi"
        alwaysServerError).2).history = [] :=
  ⟨rfl, rfl, rfl, rfl⟩

/-- C2.  Evaluation of the factory: `create_client` substitutes the
provider defaults and dispatches for the five non-generic providers and
rejects unknown identifiers, but its `generic` arm always raises
`TypeError` because it passes a `model` argument that
`GenericClient.__init__` does not accept. -/
theorem create_client_generic_always_raises :
    create_client "generic" none none none = .error .typeError ∧
    create_client "generic" (some "http://localhost:9000") (some "tok") (some "m")
      = .error .typeError ∧
    create_client "openai" none none none
      = .ok (.openai, ⟨"https://api.openai.com", none, none, []⟩) ∧
    create_client "ollama" none (some "tok") none
      = .ok (.ollama, ⟨"http://localhost:11434", some "tok", none, []⟩) ∧
    create_client "anthropic" none none none
      = .ok (.anthropic, ⟨"https://api.anthropic.com", none, none, []⟩) ∧
    create_client "gemini" none none (some "gemini-pro")
      = .ok (.gemini, ⟨"https://generativelanguage.googleapis.com", none,
          some "gemini-pro", []⟩) ∧
    create_client "cohere" none none none
      = .ok (.cohere, ⟨"https://api.cohere.ai", none, none, []⟩) ∧
    create_client "mystery" none none none = .error .valueError :=
  ⟨rfl, rfl, rfl, rfl, rfl, rfl, rfl, rfl⟩

/-- C7.  `clear_history` empties the history and changes nothing else:
`base_url`, `token` and `model` are untouched, and on any state built by the
constructor (with whatever history it has accumulated) clearing gives back
exactly the freshly constructed client with the same configuration. -/
theorem clear_history_frame :
    (∀ st : ClientState,
      (clear_history st).history = [] ∧
      (clear_history st).base_url = st.base_url ∧
      (clear_history st).token = st.token ∧
      (clear_history st).model = st.model) ∧
    (∀ (b : String) (tk m : Option String) (h : List Message),
      clear_history { mkClient b tk m with history := h } = mkClient b tk m) :=
  ⟨fun _ => ⟨rfl, rfl, rfl, rfl⟩, fun _ _ _ _ => rfl⟩

/-- C8.  `is_auth_error` classifies a response as an authentication error
exactly when the status is 401 or 403 or the lowercased body text contains
one of the fixed auth keywords; in particular a 200 response whose body says
`unauthorized` is an authentication error, and `OpenAIClient.test_connection`
raises the authentication error on it. -/
theorem is_auth_error_spec :
    (∀ r : HResponse,
      is_auth_error r = true ↔
        (r.status = 401 ∨ r.status = 403 ∨
          ∃ k ∈ authKeywords, pyContains (pyLower r.text) k = true)) ∧
    is_auth_error ⟨200, none, "error: Unauthorized request"⟩ = true ∧
    openaiTestConnection ⟨200, none, "error: Unauthorized request"⟩
      = .error .authError := by
  refine ⟨fun r => ?_, rfl, rfl⟩
  by_cases h : (r.status == 401 || r.status == 403) = true
  · have h' := h
    rw [Bool.or_eq_true, beq_iff_eq, beq_iff_eq] at h'
    simp only [is_auth_error, if_pos h]
    tauto
  · have h' := h
    rw [Bool.or_eq_true, beq_iff_eq, beq_iff_eq] at h'
    push_neg at h'
    simp only [is_auth_error, if_neg h, List.any_eq_true]
    tauto

/-- Witness for C8: a bare 401 is an authentication error. -/
theorem is_auth_error_spec_witness :
    is_auth_error ⟨401, none, ""⟩ = true :=
  (is_auth_error_spec.1 ⟨401, none, ""⟩).mpr (Or.inl rfl)

/-- C3 counterexample.  The claim states that `try_connection` reports
reachable if and only if some attempted request received a status below
500.  Against a server answering 405 to HEAD and 500 to GET, both requests
are attempted, HEAD receives 405 < 500, yet the probe reports not
reachable — because a 405 on HEAD only triggers the GET retry and is never
itself counted as success (utils.py lines 43-44). -/
theorem try_connection_reachable_iff_refuted :
    ¬ (try_connection probe405Then500 = true ↔
        ∃ m ∈ attempted probe405Then500,
          ∃ c, probe405Then500 m = some c ∧ c < 500) := by
  intro h
  have hm : Method.HEAD ∈ attempted probe405Then500 := by decide
  have := h.mpr ⟨Method.HEAD, hm, 405, rfl, by omega⟩
  exact absurd this (by decide)

/-- C3 (amended).  `try_connection` reports reachable exactly when either
HEAD receives a status below 500 other than 405, or — HEAD having failed at
network level, answered 405, or answered 500-or-above — GET receives a
status below 500.  When both requests fail at network level (connection
refused, DNS failure, timeout) the result is not-reachable; the function is
total, so no exception escapes. -/
theorem try_connection_classification :
    ∀ o : Method → Option Nat,
      (try_connection o = true ↔
        ((∃ c, o Method.HEAD = some c ∧ c < 500 ∧ c ≠ 405) ∨
          ((∀ c, o Method.HEAD = some c → c = 405 ∨ 500 ≤ c) ∧
            ∃ c, o Method.GET = some c ∧ c < 500))) ∧
      (o Method.HEAD = none → o Method.GET = none →
        try_connection o = false) := by
  intro o
  have hhh : (Method.HEAD == Method.HEAD) = true := rfl
  have hgh : (Method.GET == Method.HEAD) = false := rfl
  refine ⟨?_, fun hh hg => by simp [try_connection, tryConnectionLoop, hh, hg]⟩
  cases hh : o Method.HEAD with
  | none =>
    cases hg : o Method.GET with
    | none => simp [try_connection, tryConnectionLoop, hh, hg]
    | some d =>
      by_cases hd : d < 500 <;>
        simp [try_connection, tryConnectionLoop, hh, hg, hgh, hd]
  | some c =>
    cases hg : o Method.GET with
    | none =>
      by_cases hc : c < 500 <;> by_cases h4 : c = 405 <;>
        simp [try_connection, tryConnectionLoop, hh, hg, hhh, hgh, hc, h4]
    | some d =>
      by_cases hc : c < 500 <;> by_cases h4 : c = 405 <;> by_cases hd : d < 500 <;>
        simp [try_connection, tryConnectionLoop, hh, hg, hhh, hgh, hc, h4, hd] <;>
        try omega

/-- Witness for C3: a server answering 200 to HEAD is reachable, and a
fully unreachable server is not. -/
theorem try_connection_classification_witness :
    try_connection probeAllOk = true ∧
    try_connection (fun _ => none) = false :=
  ⟨(try_connection_classification probeAllOk).1.mpr
      (Or.inl ⟨200, rfl, by omega, by omega⟩),
    (try_connection_classification (fun _ => none)).2 rfl rfl⟩

/-- Searching a concatenation finds the first hit of the left part, else of
the right part. -/
theorem findSome?_append_or {α β : Type} (l₁ l₂ : List α) (f : α → Option β) :
    (l₁ ++ l₂).findSome? f
      = match l₁.findSome? f with
        | some b => some b
        | none => l₂.findSome? f := by
  induction l₁ with
  | nil => simp
  | cons a t ih =>
    cases h : f a <;> simp [List.findSome?_cons, h, ih]

/-- Searching a flattened nested list is the nested first-match search. -/
theorem findSome?_flatMap_eq {α β γ : Type} (l : List α) (g : α → List β)
    (f : β → Option γ) :
    (l.flatMap g).findSome? f = l.findSome? (fun a => (g a).findSome? f) := by
  induction l with
  | nil => simp
  | cons a t ih =>
    rw [List.flatMap_cons, findSome?_append_or, List.findSome?_cons]
    cases (g a).findSome? f <;> simp [ih]

/-- Searching a mapped list composes the map into the search function. -/
theorem findSome?_map_eq {α β γ : Type} (l : List α) (h : α → β)
    (f : β → Option γ) :
    (l.map h).findSome? f = l.findSome? (fun a => f (h a)) := by
  induction l with
  | nil => simp
  | cons a t ih =>
    cases hfa : f (h a) <;> simp [List.findSome?_cons, hfa, ih]

/-- A search that never yields finds nothing. -/
theorem findSome?_none_eq {α β : Type} (l : List α) :
    l.findSome? (fun _ => (none : Option β)) = none := by
  induction l with
  | nil => simp
  | cons a t ih => simp [List.findSome?_cons, ih]

/-- Projecting the first component out of a conditional pair search. -/
theorem map_fst_find?_eq {α β : Type} (l : List (α × β)) (q : β → Bool) :
    ((l.find? (fun pr => q pr.2)).map Prod.fst)
      = l.findSome? (fun pr => if q pr.2 then some pr.1 else none) := by
  induction l with
  | nil => simp
  | cons a t ih =>
    by_cases h : q a.2 = true <;>
      simp [List.find?_cons, List.findSome?_cons, h, ih]

/-- C4.  `detect_api` equals the first match over the flattened, ordered
probe list (ports as given — the explicit nonzero port alone, else the
fixed fallback list — then HTTPS before HTTP, then providers in declaration
order, then each signature's paths in order); the `prefer_https` hint never
changes the outcome; with no reachable probe the result is `none`; and on a
host answering for both the OpenAI and the Ollama signature at one port the
earlier-declared provider, OpenAI, is returned. -/
theorem detect_api_first_match :
    (∀ (host : String) (port : Option Int) (pref : Bool) (oracle : String → Bool),
      detect_api host port pref oracle
        = ((probeList host port).find? (fun pr => oracle pr.2)).map Prod.fst) ∧
    (∀ host port oracle,
      detect_api host port true oracle = detect_api host port false oracle) ∧
    (∀ p : Int, p ≠ 0 → portsToTry (some p) = [p]) ∧
    portsToTry none = DEFAULT_PORTS ∧
    (∀ host port pref, detect_api host port pref (fun _ => false) = none) ∧
    detect_api "h" (some 9) false twoProviderOracle
      = some ⟨"openai", "h", 9, "https://h:9"⟩ := by
  refine ⟨fun host port pref oracle => ?_, fun host port oracle => rfl,
    fun p hp => by simp [portsToTry, hp], rfl,
    fun host port pref => ?_, rfl⟩
  · rw [map_fst_find?_eq]
    unfold detect_api probeList
    simp only [findSome?_flatMap_eq, findSome?_map_eq]
    cases pref <;> rfl
  · simp only [detect_api, Bool.false_eq_true, if_false, findSome?_none_eq]

/-- Witness for C4: a nonzero explicit port is probed alone, and a host
reachable nowhere yields no detection. -/
theorem detect_api_first_match_witness :
    portsToTry (some 9) = [9] ∧
    detect_api "x" none true (fun _ => false) = none :=
  ⟨detect_api_first_match.2.2.1 9 (by decide),
    detect_api_first_match.2.2.2.2.1 "x" none true⟩

/-- A pure digit string parses under `int()` to its digit value. -/
theorem pyInt?_digits (s : String) (n : Nat)
    (h : digitsVal? s.toList = some n) : pyInt? s = some (n : Int) := by
  have hdash : ('-' : Char).isDigit = false := by decide
  have hplus : ('+' : Char).isDigit = false := by decide
  unfold pyInt?
  split
  case _ ds heq => rw [heq] at h; simp [digitsVal?, hdash] at h
  case _ ds heq => rw [heq] at h; simp [digitsVal?, hplus] at h
  case _ =>
    simp only [String.toList] at h
    simp [h]

/-- Inputs containing a scheme separator take the URL branch. -/
theorem parse_host_input_url (s : String) (h : pyContains s "://" = true) :
    parse_host_input s = urlBranch s := by
  simp [parse_host_input, h]

/-- The URL branch reports TLS exactly for the `https` scheme. -/
theorem urlBranch_tls_iff (s host : String) (port : Option Int) (tls : Bool)
    (h : urlBranch s = .ok (host, port, tls)) :
    (tls = true ↔ (pyUrlparse s).scheme = "https") := by
  simp only [urlBranch] at h
  cases hp : urlPort (pyUrlparse s).portStr with
  | error e => rw [hp] at h; exact absurd h (by simp)
  | ok port' =>
    rw [hp] at h
    simp only [Except.ok.injEq, Prod.mk.injEq] at h
    rw [← h.2.2]
    exact beq_iff_eq

/-- Inputs with one colon and a digit suffix split into host and port. -/
theorem parse_host_input_hostport (s : String) (n : Nat)
    (h : pyContains s "://" = false) (hc : pyCountChar ':' s = 1)
    (hd : digitsVal? ((rsplitChar ':' s).2.toList) = some n) :
    parse_host_input s = .ok ((rsplitChar ':' s).1, some (n : Int), false) := by
  have hint := pyInt?_digits (rsplitChar ':' s).2 n hd
  simp [parse_host_input, h, hc, hint]

/-- All remaining inputs take the bare-host heuristic on the whole string. -/
theorem parse_host_input_bare (s : String)
    (h : pyContains s "://" = false)
    (hor : ¬ pyCountChar ':' s = 1 ∨ pyInt? (rsplitChar ':' s).2 = none) :
    parse_host_input s = .ok (bareHost s) := by
  by_cases hc : pyCountChar ':' s = 1
  · rcases hor with hne | hnone
    · exact absurd hc hne
    · simp [parse_host_input, h, hc, hnone]
  · have : (pyCountChar ':' s == 1) = false := by
      simpa using hc
    simp [parse_host_input, h, this]

/-- C5.  The three normalization rules of `parse_host_input` apply in
order: an input containing `://` goes through URL parsing and reports TLS
exactly when the scheme is `https`; otherwise an input with exactly one
colon and a digit suffix splits into hostname and numeric port with TLS
off; every other input is returned whole as a bare host with the
dot-heuristic deciding TLS — in particular `localhost` gets no port and no
TLS, and `api.example.com` gets no port and TLS. -/
theorem parse_host_input_rules :
    (∀ s, pyContains s "://" = true → parse_host_input s = urlBranch s) ∧
    (∀ (s host : String) (port : Option Int) (tls : Bool),
      pyContains s "://" = true →
      parse_host_input s = .ok (host, port, tls) →
      (tls = true ↔ (pyUrlparse s).scheme = "https")) ∧
    (∀ (s : String) (n : Nat),
      pyContains s "://" = false → pyCountChar ':' s = 1 →
      digitsVal? ((rsplitChar ':' s).2.toList) = some n →
      parse_host_input s = .ok ((rsplitChar ':' s).1, some (n : Int), false)) ∧
    (∀ s : String,
      pyContains s "://" = false →
      (¬ pyCountChar ':' s = 1 ∨ pyInt? (rsplitChar ':' s).2 = none) →
      parse_host_input s = .ok (bareHost s)) ∧
    parse_host_input "localhost" = .ok ("localhost", none, false) ∧
    parse_host_input "api.example.com" = .ok ("api.example.com", none, true) := by
  refine ⟨parse_host_input_url, ?_, parse_host_input_hostport,
    parse_host_input_bare, rfl, rfl⟩
  intro s host port tls h heq
  rw [parse_host_input_url s h] at heq
  exact urlBranch_tls_iff s host port tls heq

/-- Witness for C5: a host-colon-port input splits with TLS off, and an
HTTPS URL reports TLS on. -/
theorem parse_host_input_rules_witness :
    parse_host_input "10.0.0.5:8080" = .ok ("10.0.0.5", some 8080, false) ∧
    (true = true ↔ (pyUrlparse "https://api.example.com").scheme = "https") :=
  ⟨parse_host_input_rules.2.2.1 "10.0.0.5:8080" 8080 rfl rfl rfl,
    parse_host_input_rules.2.1 "https://api.example.com" "api.example.com"
      none true rfl rfl⟩

/-- C10 counterexample.  The claim quantifies over every input with exactly
one colon and a non-integer suffix; `a://b` is such an input (its single
colon is the one of `://`, and `int("//b")` fails), yet it takes the URL
branch, returning hostname `b` — not the whole unsplit string. -/
theorem parse_single_colon_nonnumeric_refuted :
    pyCountChar ':' "a://b" = 1 ∧ pyInt? "//b" = none ∧
    parse_host_input "a://b" = .ok ("b", none, false) ∧
    ("b" : String) ≠ "a://b" :=
  ⟨rfl, rfl, rfl, by decide⟩

/-- C10 (amended).  For every input free of `://` that contains exactly one
colon whose trailing segment `int()` rejects, `parse_host_input` does not
fail: it silently falls through to the bare-host rule applied to the whole
unsplit string — the input itself as hostname, no port, and TLS decided by
the dot-heuristic on the full string including the colon and suffix. -/
theorem parse_single_colon_nonnumeric_falls_through :
    ∀ s : String,
      pyContains s "://" = false → pyCountChar ':' s = 1 →
      pyInt? (rsplitChar ':' s).2 = none →
      parse_host_input s = .ok (s, none, (bareHost s).2.2) :=
  fun s h _hc hn => parse_host_input_bare s h (Or.inr hn)

/-- Witness for C10: `example.com:abc` is returned whole, with TLS on by
the dot-heuristic. -/
theorem parse_single_colon_nonnumeric_falls_through_witness :
    parse_host_input "example.com:abc" = .ok ("example.com:abc", none, true) :=
  parse_single_colon_nonnumeric_falls_through "example.com:abc" rfl rfl rfl

/-- A successful OpenAI send extends the history by exactly the user turn
and the assistant turn. -/
theorem openaiSend_ok_history (st : ClientState) (t : String)
    (o : Json → HResponse) (r : Json) (st' : ClientState)
    (h : openaiSend st t o = (.ok r, st')) :
    st'.history = st.history ++ [⟨"user", .str t⟩, ⟨"assistant", r⟩] := by
  simp only [openaiSend] at h
  split at h
  · split at h <;> simp at h
  · split at h
    · simp at h
    · split at h
      · simp at h
      · simp only [Prod.mk.injEq, Except.ok.injEq] at h
        obtain ⟨h1, h2⟩ := h
        subst h1
        rw [← h2]
        simp

/-- A successful Ollama send extends the history by exactly the user turn
and the assistant turn. -/
theorem ollamaSend_ok_history (st : ClientState) (t : String)
    (o : Json → HResponse) (r : Json) (st' : ClientState)
    (h : ollamaSend st t o = (.ok r, st')) :
    st'.history = st.history ++ [⟨"user", .str t⟩, ⟨"assistant", r⟩] := by
  simp only [ollamaSend] at h
  split at h
  · simp at h
  · split at h
    · simp at h
    · split at h
      · simp at h
      · simp only [Prod.mk.injEq, Except.ok.injEq] at h
        obtain ⟨h1, h2⟩ := h
        subst h1
        rw [← h2]

/-- A successful Anthropic send extends the history by exactly the user
turn and the assistant turn. -/
theorem anthropicSend_ok_history (st : ClientState) (t : String)
    (o : Json → HResponse) (r : Json) (st' : ClientState)
    (h : anthropicSend st t o = (.ok r, st')) :
    st'.history = st.history ++ [⟨"user", .str t⟩, ⟨"assistant", r⟩] := by
  simp only [anthropicSend] at h
  split at h
  · split at h <;> simp at h
  · split at h
    · simp at h
    · split at h
      · simp at h
      · simp only [Prod.mk.injEq, Except.ok.injEq] at h
        obtain ⟨h1, h2⟩ := h
        subst h1
        rw [← h2]

/-- A successful Gemini send extends the history by exactly the user turn
and the assistant turn. -/
theorem geminiSend_ok_history (st : ClientState) (t : String)
    (o : Json → HResponse) (r : Json) (st' : ClientState)
    (h : geminiSend st t o = (.ok r, st')) :
    st'.history = st.history ++ [⟨"user", .str t⟩, ⟨"assistant", r⟩] := by
  simp only [geminiSend] at h
  split at h
  · simp at h
  · split at h
    · simp at h
    · split at h
      · simp at h
      · split at h
        · simp at h
        · simp only [Prod.mk.injEq, Except.ok.injEq] at h
          obtain ⟨h1, h2⟩ := h
          subst h1
          rw [← h2]

/-- A successful Cohere send extends the history by exactly the user turn
and the assistant turn. -/
theorem cohereSend_ok_history (st : ClientState) (t : String)
    (o : Json → HResponse) (r : Json) (st' : ClientState)
    (h : cohereSend st t o = (.ok r, st')) :
    st'.history = st.history ++ [⟨"user", .str t⟩, ⟨"assistant", r⟩] := by
  simp only [cohereSend] at h
  split at h
  · simp at h
  · split at h
    · simp at h
    · split at h
      · simp at h
      · split at h
        · simp at h
        · simp only [Prod.mk.injEq, Except.ok.injEq] at h
          obtain ⟨h1, h2⟩ := h
          subst h1
          rw [← h2]

/-- A successful pass of the generic payload loop extends the history by
exactly the user turn and the assistant turn. -/
theorem genericSendLoop_ok_history :
    ∀ (ps : List Json) (st : ClientState) (t : String)
      (o : Json → HResponse) (r : Json) (st' : ClientState),
      genericSendLoop st t o ps = (.ok r, st') →
      st'.history = st.history ++ [⟨"user", .str t⟩, ⟨"assistant", r⟩]
  | [], st, t, o, r, st' => by
    intro h
    simp [genericSendLoop] at h
  | p :: rest, st, t, o, r, st' => by
    intro h
    simp only [genericSendLoop] at h
    split at h
    · rename_i s hs
      simp only [Prod.mk.injEq, Except.ok.injEq] at h
      obtain ⟨h1, h2⟩ := h
      subst h1
      rw [← h2]
    · exact genericSendLoop_ok_history rest st t o r st' h

/-- A successful send of any provider client extends the history by exactly
the user turn and the assistant turn. -/
theorem sendMessage_ok_history (k : Provider) (st : ClientState) (t : String)
    (o : Json → HResponse) (r : Json) (st' : ClientState)
    (h : sendMessage k st t o = (.ok r, st')) :
    st'.history = st.history ++ [⟨"user", .str t⟩, ⟨"assistant", r⟩] := by
  cases k with
  | openai => exact openaiSend_ok_history st t o r st' h
  | ollama => exact ollamaSend_ok_history st t o r st' h
  | anthropic => exact anthropicSend_ok_history st t o r st' h
  | gemini => exact geminiSend_ok_history st t o r st' h
  | cohere => exact cohereSend_ok_history st t o r st' h
  | generic => exact genericSendLoop_ok_history (genericPayloads t) st t o r st' h

/-- Appending a user/assistant pair preserves strict alternation. -/
theorem alternatesUA_append :
    ∀ (h : List Message) (t : String) (r : Json),
      alternatesUA (h ++ [⟨"user", .str t⟩, ⟨"assistant", r⟩]) = alternatesUA h
  | [], _, _ => by simp [alternatesUA]
  | [_], _, _ => by simp [alternatesUA]
  | _ :: _ :: rest, t, r => by
    simp [alternatesUA, alternatesUA_append rest t r]

/-- Running successful sends from an alternating history keeps alternation
and adds two turns per call. -/
theorem runSends_alternates :
    ∀ (steps : List (String × (Json → HResponse))) (k : Provider)
      (st st' : ClientState),
      alternatesUA st.history = true → runSends k st steps = some st' →
      st'.history.length = st.history.length + 2 * steps.length ∧
        alternatesUA st'.history = true
  | [], k, st, st' => by
    intro ha h
    simp only [runSends, Option.some.injEq] at h
    subst h
    simp [ha]
  | step :: rest, k, st, st' => by
    intro ha h
    simp only [runSends] at h
    rcases hs : sendMessage k st step.1 step.2 with ⟨res, st1⟩
    rw [hs] at h
    cases res with
    | error e => simp at h
    | ok r =>
      have happ := sendMessage_ok_history k st step.1 step.2 r st1 hs
      have ih := runSends_alternates rest k st1 st'
        (by rw [happ, alternatesUA_append]; exact ha) h
      rw [happ] at ih
      refine ⟨?_, ih.2⟩
      have h1 := ih.1
      simp only [List.length_append, List.length_cons, List.length_nil] at h1 ⊢
      omega

/-- C6.  Every successful `send_message` on every provider client appends
exactly two history entries — the user turn with the sent text, then the
assistant turn with the returned reply — and nothing else; hence after `n`
successful calls starting from a freshly constructed client the history has
`2 n` entries strictly alternating user, assistant. -/
theorem send_message_appends_user_then_assistant :
    (∀ (k : Provider) (st : ClientState) (t : String) (o : Json → HResponse)
        (r : Json) (st' : ClientState),
      sendMessage k st t o = (.ok r, st') →
      st'.history = st.history ++ [⟨"user", .str t⟩, ⟨"assistant", r⟩]) ∧
    (∀ (k : Provider) (b : String) (tk m : Option String)
        (steps : List (String × (Json → HResponse))) (st' : ClientState),
      runSends k (mkClient b tk m) steps = some st' →
      st'.history.length = 2 * steps.length ∧
        alternatesUA st'.history = true) := by
  refine ⟨sendMessage_ok_history, fun k b tk m steps st' h => ?_⟩
  have := runSends_alternates steps k (mkClient b tk m) st' rfl h
  simpa [mkClient] using this

/-- Witness for C6: one successful OpenAI exchange yields exactly the user
turn then the assistant turn, and a one-step run has an alternating
two-entry history. -/
theorem send_message_appends_user_then_assistant_witness :
    ((sendMessage Provider.openai (mkClient "http://h" none none) "hi"
        okChatOracle).2).history
      = [⟨"user", .str "hi"⟩, ⟨"assistant", .str "ok"⟩] ∧
    ((⟨"http://h", none, none,
        [⟨"user", .str "hi"⟩, ⟨"assistant", .str "ok"⟩]⟩ :
          ClientState).history.length = 2 ∧
      alternatesUA (⟨"http://h", none, none,
        [⟨"user", .str "hi"⟩, ⟨"assistant", .str "ok"⟩]⟩ :
          ClientState).history = true) := by
  constructor
  · have h := send_message_appends_user_then_assistant.1 Provider.openai
      (mkClient "http://h" none none) "hi" okChatOracle (.str "ok")
      ((sendMessage Provider.openai (mkClient "http://h" none none) "hi"
        okChatOracle).2) rfl
    simpa [mkClient] using h
  · exact send_message_appends_user_then_assistant.2 Provider.openai
      "http://h" none none [("hi", okChatOracle)] _ rfl

/-- The generic payload loop returns the reply of the first accepted
payload, appending the exchange to the history. -/
theorem genericSendLoop_accepted_some :
    ∀ (ps : List Json) (st : ClientState) (t : String) (o : Json → HResponse)
      (p : Json) (s : String),
      firstAccepted o ps = some (p, s) →
      genericSendLoop st t o ps =
        (.ok (.str s),
         { st with history := st.history ++
            [⟨"user", .str t⟩, ⟨"assistant", .str s⟩] })
  | [], _, _, _, _, _ => by
    intro h
    simp [firstAccepted] at h
  | q :: rest, st, t, o, p, s => by
    intro h
    simp only [firstAccepted] at h
    simp only [genericSendLoop]
    cases hq : genericAccepts (o q) with
    | none =>
      rw [hq] at h
      exact genericSendLoop_accepted_some rest st t o p s h
    | some s' =>
      rw [hq] at h
      simp only [Option.some.injEq, Prod.mk.injEq] at h
      rw [h.2]

/-- When no payload is accepted the generic payload loop raises the final
API error and leaves the state unchanged. -/
theorem genericSendLoop_accepted_none :
    ∀ (ps : List Json) (st : ClientState) (t : String) (o : Json → HResponse),
      firstAccepted o ps = none →
      genericSendLoop st t o ps = (.error .apiError, st)
  | [], _, _, _ => by
    intro _
    rfl
  | q :: rest, st, t, o => by
    intro h
    simp only [firstAccepted] at h
    simp only [genericSendLoop]
    cases hq : genericAccepts (o q) with
    | none =>
      rw [hq] at h
      exact genericSendLoop_accepted_none rest st t o h
    | some s' => rw [hq] at h; exact absurd h (by simp)

/-- The endpoint-discovery loop is a first-match search. -/
theorem discoverLoop_find :
    ∀ (probe : String → Nat) (eps : List String),
      discoverLoop probe eps = eps.find? (fun ep => decide (probe ep < 500))
  | probe, [] => rfl
  | probe, ep :: rest => by
    by_cases h : probe ep < 500 <;>
      simp [discoverLoop, List.find?_cons, h, discoverLoop_find probe rest]

/-- C9.  The generic client tries its four payload shapes in fixed order
against its one discovered endpoint: the first response with a sub-400
status and a JSON body carrying a recognised (truthy, content-unwrapped)
reply key wins, the exchange is recorded and the reply returned; if no
shape yields a reply the call raises the final API error instead of
returning empty text.  Endpoint discovery is a first-match search over the
candidate paths.  A mock endpoint accepting only the third of the four
shapes and answering `{"reply": "hi"}` makes `send_message` return `hi`. -/
theorem generic_send_message_spec :
    (∀ (st : ClientState) (t : String) (o : Json → HResponse)
        (p : Json) (s : String),
      firstAccepted o (genericPayloads t) = some (p, s) →
      genericSend st t o =
        (.ok (.str s),
         { st with history := st.history ++
            [⟨"user", .str t⟩, ⟨"assistant", .str s⟩] })) ∧
    (∀ (st : ClientState) (t : String) (o : Json → HResponse),
      firstAccepted o (genericPayloads t) = none →
      genericSend st t o = (.error .apiError, st)) ∧
    (∀ (probe : String → Nat) (eps : List String),
      discoverLoop probe eps = eps.find? (fun ep => decide (probe ep < 500))) ∧
    (genericPayloads "hello").get? 2 = some (.obj [("text", .str "hello")]) ∧
    genericAccepts (mockThirdShape ((genericPayloads "hello").getD 0 .null)) = none ∧
    genericAccepts (mockThirdShape ((genericPayloads "hello").getD 1 .null)) = none ∧
    genericAccepts (mockThirdShape ((genericPayloads "hello").getD 3 .null)) = none ∧
    genericAccepts (mockThirdShape ((genericPayloads "hello").getD 2 .null))
      = some "hi" ∧
    (genericSend (mkClient "http://h" none none) "hello" mockThirdShape).1
      = .ok (.str "hi") :=
  ⟨fun st t o p s h => genericSendLoop_accepted_some (genericPayloads t) st t o p s h,
   fun st t o h => genericSendLoop_accepted_none (genericPayloads t) st t o h,
   discoverLoop_find, rfl, rfl, rfl, rfl, rfl, rfl⟩

/-- Witness for C9: against the third-shape-only mock the generic client
returns `hi` and records the exchange. -/
theorem generic_send_message_spec_witness :
    genericSend (mkClient "http://h" none none) "hello" mockThirdShape
      = (.ok (.str "hi"),
         ⟨"http://h", none, none,
          [⟨"user", .str "hello"⟩, ⟨"assistant", .str "hi"⟩]⟩) := by
  have h := generic_send_message_spec.1 (mkClient "http://h" none none)
    "hello" mockThirdShape (.obj [("text", .str "hello")]) "hi" rfl
  simpa [mkClient] using h

end Chatifier
